import Mathlib

/-
  Shallow embedding of the file-access authorization and presigned-URL
  issuance subsystem (FilesService in
  src/src/modules/files/services/file.service.ts), with the external
  collaborators (Prisma record store, S3 object store, auth microservice)
  modelled as explicit state and injected call outcomes.

  Remote calls are modelled by passing their outcome in as a parameter
  (an Except value); the Prisma record store is a list of rows threaded
  through each operation; object-store interactions are logged so that
  "no object-store call was made" is provable.
-/

set_option linter.unusedVariables false

deriving instance DecidableEq for Except

namespace FilesService

/-- A persisted file metadata record: one row of the Prisma Files table.
The file type enumeration is kept opaque as a string. -/
structure FileRecord where
  id : String
  fileName : String
  fileType : String
  storageKey : String
  userId : String
deriving Repr, DecidableEq

/-- JavaScript exception values thrown by the service: the two NestJS
typed exceptions the service uses, and the untyped Error class used both
by the generic throw in createFile and by rejections coming from the
collaborators (the repository test suite itself rejects the Prisma create
with a plain Error). -/
inductive JsError where
  | notFoundException (msg : String)
  | unauthorizedException (msg : String)
  | genericError (msg : String)
deriving Repr, DecidableEq

/-- Prisma files.findUnique on the primary id column. -/
def findUnique (store : List FileRecord) (fileId : String) : Option FileRecord :=
  store.find? (fun f => f.id == fileId)

/-- Calls made against the object store (the S3 client), recorded so that
theorems can state that no object-store interaction happened. A presign
entry records a capability issuance for the given key; deleteObject
records an S3Client.send of a DeleteObjectCommand for the key. -/
inductive S3Action where
  | presignPut (key : String)
  | presignGet (key : String)
  | deleteObject (key : String)
deriving Repr, DecidableEq

/-- The storage key template of getPresignPutObject:
the template literal userId/Date.now()_fileName. -/
def mkStorageKey (userId : String) (now : Nat) (fileName : String) : String :=
  userId ++ "/" ++ toString now ++ "_" ++ fileName

/-- Response of getPresignPutObject: the presigned PUT url and the minted
storage key. -/
structure GetPresignPutObjectResponseDto where
  url : String
  storageKey : String
deriving Repr, DecidableEq

/-- getPresignPutObject: mints the storage key from the requesting user id,
the current clock reading and the file name, then asks the signer for a
time-bounded PUT capability for that key; a signer failure propagates
(the catch blocks in the source only log and rethrow). -/
def getPresignPutObject (now : Nat) (signedUrl : Except JsError String)
    (fileName contentType userId : String) :
    Except JsError GetPresignPutObjectResponseDto :=
  let storageKey := mkStorageKey userId now fileName
  match signedUrl with
  | .ok url => .ok { url := url, storageKey := storageKey }
  | .error e => .error e

/-- Response of getPresignGetObject: only the presigned GET url. -/
structure GetPresignGetObjectResponseDto where
  url : String
deriving Repr, DecidableEq

/-- Outcome of getPresignGetObject together with the object-store calls it
made. -/
structure PresignGetOutcome where
  result : Except JsError GetPresignGetObjectResponseDto
  s3Calls : List S3Action
deriving Repr, DecidableEq

/-- getPresignGetObject: looks the record up by file id; if absent, throws
NotFoundException before any object-store interaction; otherwise requests
a GET capability for the stored key (inline disposition). Note that the
source takes no requester identity at all (the controller route passes
only the path parameter id), so no ownership check is possible. -/
def getPresignGetObject (store : List FileRecord) (signedUrl : Except JsError String)
    (fileId : String) : PresignGetOutcome :=
  match findUnique store fileId with
  | none =>
      { result := .error (.notFoundException ("file.fileNotFound")), s3Calls := [] }
  | some file =>
      match signedUrl with
      | .ok url =>
          { result := .ok { url := url }, s3Calls := [.presignGet file.storageKey] }
      | .error e =>
          { result := .error e, s3Calls := [.presignGet file.storageKey] }

/-- Outcome of deleteFile: the returned value or thrown exception, the
record-store state afterwards, and the object-store calls made. -/
structure DeleteOutcome where
  result : Except JsError Unit
  store : List FileRecord
  s3Calls : List S3Action
deriving Repr, DecidableEq

/-- deleteFile: find the record (NotFoundException if absent), check
ownership (UnauthorizedException if the requester is not the owner), then
send the DeleteObjectCommand to the object store, and only afterwards
delete the record. The S3 send is awaited with no surrounding try/catch,
so an object-store failure propagates and the record deletion is never
reached; a record-store delete failure likewise propagates. -/
def deleteFile (store : List FileRecord) (s3Delete : Except JsError Unit)
    (prismaDelete : Except JsError Unit) (userId fileId : String) : DeleteOutcome :=
  match findUnique store fileId with
  | none =>
      { result := .error (.notFoundException ("file.fileNotFound")),
        store := store, s3Calls := [] }
  | some file =>
      if file.userId != userId then
        { result := .error (.unauthorizedException ("Not allowed to delete this file")),
          store := store, s3Calls := [] }
      else
        match s3Delete with
        | .error e =>
            { result := .error e, store := store,
              s3Calls := [.deleteObject file.storageKey] }
        | .ok _ =>
            match prismaDelete with
            | .error e =>
                { result := .error e, store := store,
                  s3Calls := [.deleteObject file.storageKey] }
            | .ok _ =>
                { result := .ok (), store := store.filter (fun f => f.id != fileId),
                  s3Calls := [.deleteObject file.storageKey] }

/-- Public identity fields returned by the auth microservice for a user,
as shaped by plainToInstance into the user response DTO. The DTO source
file is not part of the extract; modelled from the spec description of an
IdentitySnapshot as an id plus display fields. -/
structure UserResponseDto where
  id : String
  name : String
deriving Repr, DecidableEq

/-- Body of the createFile request: file name, file type and the
client-supplied storage key. -/
structure CreateFileDto where
  fileName : String
  fileType : String
  storageKey : String
deriving Repr, DecidableEq

/-- Response of createFile: the persisted record spread together with the
author identity. -/
structure FileResponseDto where
  id : String
  fileName : String
  fileType : String
  storageKey : String
  userId : String
  author : UserResponseDto
deriving Repr, DecidableEq

/-- The identity lookup pipeline authClient.send(getUserById).pipe(timeout(5000),
retry(3)): one initial subscription plus up to three resubscriptions, each
modelled by the behavior of the remote on that attempt number (an error
covers any error notification: transport failure, the 5000 ms timeout, or
an error response from the remote, a definitive not-found included, since
rxjs retry resubscribes on every error indiscriminately). If the fourth
attempt also errors, that error propagates. -/
def lookupWithRetry (authSend : Nat → Except String UserResponseDto) :
    Except String UserResponseDto :=
  match authSend 0 with
  | .ok u => .ok u
  | .error _ =>
      match authSend 1 with
      | .ok u => .ok u
      | .error _ =>
          match authSend 2 with
          | .ok u => .ok u
          | .error _ => authSend 3

/-- Outcome of createFile: the returned value or thrown exception, the
record-store state afterwards, and whether the auth microservice was
contacted. -/
structure CreateOutcome where
  result : Except JsError FileResponseDto
  store : List FileRecord
  authContacted : Bool
deriving Repr, DecidableEq

/-- createFile: persist the record via prisma files.create with the
client-supplied fields (createErr injects a record-store failure, which
propagates unwrapped with nothing persisted; genId is the id the record
store generates on success), then look the author up through
lookupWithRetry; on lookup failure, throw a fresh untyped Error whose
message names the user id, leaving the created record in place. -/
def createFile (store : List FileRecord) (createErr : Option JsError) (genId : String)
    (authSend : Nat → Except String UserResponseDto)
    (userId : String) (data : CreateFileDto) : CreateOutcome :=
  match createErr with
  | some e => { result := .error e, store := store, authContacted := false }
  | none =>
      let file : FileRecord :=
        { id := genId, fileName := data.fileName, fileType := data.fileType,
          storageKey := data.storageKey, userId := userId }
      let store1 := store ++ [file]
      match lookupWithRetry authSend with
      | .ok user =>
          { result := .ok { id := file.id, fileName := file.fileName,
                            fileType := file.fileType, storageKey := file.storageKey,
                            userId := file.userId, author := user },
            store := store1, authContacted := true }
      | .error msg =>
          { result := .error (.genericError
              ("Failed to retrieve user with ID " ++ userId ++ ": " ++ msg)),
            store := store1, authContacted := true }

/-- Claim C1: when the stored record exists and its owner differs from the
requester, deleteFile throws the UnauthorizedException, the record store is
returned unchanged, and no object-store call of any kind is made. -/
theorem deleteFile_nonOwner_rejected (store : List FileRecord)
    (s3Delete prismaDelete : Except JsError Unit) (requesterId fileId : String)
    (file : FileRecord) (hfind : findUnique store fileId = some file)
    (hown : file.userId ≠ requesterId) :
    deleteFile store s3Delete prismaDelete requesterId fileId =
      { result := .error (.unauthorizedException ("Not allowed to delete this file")),
        store := store, s3Calls := [] } := by
  unfold deleteFile
  rw [hfind]
  simp [hown]

/-- Witness for C1: the owner of record f1 is u1, the requester is u2, the
deletion is rejected and nothing is touched. -/
theorem deleteFile_nonOwner_rejected_witness :
    deleteFile [⟨"f1", "a.png", "JPG", "u1/1_a.png", "u1"⟩] (.ok ()) (.ok ())
        "u2" "f1" =
      { result := .error (.unauthorizedException ("Not allowed to delete this file")),
        store := [⟨"f1", "a.png", "JPG", "u1/1_a.png", "u1"⟩], s3Calls := [] } :=
  deleteFile_nonOwner_rejected _ _ _ _ _ ⟨"f1", "a.png", "JPG", "u1/1_a.png", "u1"⟩
    (by decide) (by decide)

/-- Claim C2, counterexample: the owner u1 deletes file f1 while the object
store is failing; contrary to the claim, the operation does not succeed and
the record is not deleted: the object-store error propagates and the record
store still holds the record. -/
theorem deleteFile_s3Failure_blocks_counterexample :
    deleteFile [⟨"f1", "a.png", "JPG", "u1/1_a.png", "u1"⟩]
        (.error (.genericError ("s3 down"))) (.ok ()) "u1" "f1" =
      { result := .error (.genericError ("s3 down")),
        store := [⟨"f1", "a.png", "JPG", "u1/1_a.png", "u1"⟩],
        s3Calls := [.deleteObject ("u1/1_a.png")] } := by decide

/-- Claim C2, amended: an object-store deletion failure during an
owner-initiated deleteFile propagates as the result of the operation and
blocks record deletion; the record store is unchanged, and the only
object-store call is the attempted delete of the stored key. -/
theorem deleteFile_s3Failure_propagates (store : List FileRecord) (e : JsError)
    (prismaDelete : Except JsError Unit) (requesterId fileId : String)
    (file : FileRecord) (hfind : findUnique store fileId = some file)
    (hown : file.userId = requesterId) :
    deleteFile store (.error e) prismaDelete requesterId fileId =
      { result := .error e, store := store,
        s3Calls := [.deleteObject file.storageKey] } := by
  unfold deleteFile
  rw [hfind]
  simp [hown]

/-- Witness for the amended C2: owner u9 deletes f2 while the object store
fails with s3 unavailable; the error propagates and the record stays. -/
theorem deleteFile_s3Failure_propagates_witness :
    deleteFile [⟨"f2", "b.png", "PNG", "u9/2_b.png", "u9"⟩]
        (.error (.genericError ("s3 unavailable"))) (.ok ()) "u9" "f2" =
      { result := .error (.genericError ("s3 unavailable")),
        store := [⟨"f2", "b.png", "PNG", "u9/2_b.png", "u9"⟩],
        s3Calls := [.deleteObject ("u9/2_b.png")] } :=
  deleteFile_s3Failure_propagates _ _ _ _ _ ⟨"f2", "b.png", "PNG", "u9/2_b.png", "u9"⟩
    (by decide) (by decide)

/-- Claim C3: evaluation at the failing input. Two getPresignPutObject calls
by owner u1 for photo.png with the same clock reading 1000 both mint the
storage key u1/1000_photo.png: the keys coincide, refuting pairwise
distinctness for same-instant requests. -/
theorem getPresignPutObject_sameInstant_collision :
    getPresignPutObject 1000 (.ok ("url1")) "photo.png" "image/png" "u1" =
      .ok { url := "url1", storageKey := "u1/1000_photo.png" } ∧
    getPresignPutObject 1000 (.ok ("url2")) "photo.png" "image/png" "u1" =
      .ok { url := "url2", storageKey := "u1/1000_photo.png" } := by
  refine ⟨by decide, by decide⟩

/-- Claim C4, counterexample: createFile for user u1 with the client-supplied
storage key some-key persists the record with exactly that key, and that key
does not begin with the owner id followed by a slash: persisted keys are
taken from client-supplied values alone, with no namespacing check. -/
theorem createFile_unnamespaced_key_counterexample :
    (createFile [] none "f1" (fun _ => .ok ⟨"u1", "John"⟩) "u1"
        ⟨"a.png", "JPG", "some-key"⟩).store =
      [⟨"f1", "a.png", "JPG", "some-key", "u1"⟩] ∧
    (∀ rest : String, "some-key" ≠ "u1" ++ "/" ++ rest) := by
  refine ⟨by decide, ?_⟩
  intro rest h
  have h2 : ("u1" ++ "/" ++ rest).data = "some-key".data := by rw [h]
  simp [String.data_append] at h2

/-- Claim C4, amended: keys minted by getPresignPutObject are namespaced by
the owner id (the response key is the owner id, a slash, then the
disambiguated file name, so it always has the form ownerId/rest); keys
persisted by createFile are the client-supplied value verbatim and carry no
such guarantee. -/
theorem issueUploadUrl_key_namespaced (now : Nat)
    (url fileName contentType userId : String) :
    getPresignPutObject now (.ok url) fileName contentType userId =
      .ok { url := url,
            storageKey := userId ++ "/" ++ (toString now ++ "_" ++ fileName) } ∧
    ∃ rest, mkStorageKey userId now fileName = userId ++ "/" ++ rest := by
  constructor
  · unfold getPresignPutObject
    simp [mkStorageKey, String.append_assoc]
  · exact ⟨toString now ++ "_" ++ fileName, by simp [mkStorageKey, String.append_assoc]⟩

/-- Claim C5: getPresignGetObject takes no requester identity (the
controller passes only the path id), and issuance depends only on record
existence, not on who owns the record: replacing the owner of the stored
record leaves the outcome unchanged, and on an existing record with a
working signer the capability is returned. -/
theorem getPresignGetObject_no_ownership_check (f : FileRecord)
    (owner1 owner2 : String) (signedUrl : Except JsError String) (url : String) :
    getPresignGetObject [{ f with userId := owner1 }] signedUrl f.id =
      getPresignGetObject [{ f with userId := owner2 }] signedUrl f.id ∧
    (getPresignGetObject [f] (.ok url) f.id).result = .ok { url := url } := by
  constructor
  · unfold getPresignGetObject findUnique
    cases signedUrl <;> simp
  · unfold getPresignGetObject findUnique
    simp

/-- Claim C6, counterexample: a record-store create that fails with a plain
Error carrying the message Failed to retrieve user with ID u1: boom, and an
identity lookup that fails with boom after a successful create, surface the
very same error value from createFile, even though in the first run nothing
was persisted and in the second the record was: the two failures are not
distinguishable by the surfaced failure. -/
theorem createFile_identity_failure_indistinguishable_counterexample :
    (createFile [] (some (.genericError ("Failed to retrieve user with ID u1: boom")))
        "f1" (fun _ => .ok ⟨"u1", "John"⟩) "u1" ⟨"a.png", "JPG", "k"⟩).result =
    (createFile [] none "f1" (fun _ => .error ("boom")) "u1"
        ⟨"a.png", "JPG", "k"⟩).result ∧
    (createFile [] (some (.genericError ("Failed to retrieve user with ID u1: boom")))
        "f1" (fun _ => .ok ⟨"u1", "John"⟩) "u1" ⟨"a.png", "JPG", "k"⟩).store = [] ∧
    (createFile [] none "f1" (fun _ => .error ("boom")) "u1"
        ⟨"a.png", "JPG", "k"⟩).store = [⟨"f1", "a.png", "JPG", "k", "u1"⟩] := by
  refine ⟨by decide, by decide, by decide⟩

/-- Claim C6, amended: when the record-store create succeeds and the identity
lookup fails after its retries, createFile throws a plain untyped Error whose
message names the identity lookup and the user id, and the already-created
record remains persisted with no rollback; the failure is distinguishable
from a persistence failure only by its message text, not by type. -/
theorem createFile_identityFailure_aborts_keeps_record (store : List FileRecord)
    (genId : String) (authSend : Nat → Except String UserResponseDto)
    (userId : String) (data : CreateFileDto) (msg : String)
    (hid : lookupWithRetry authSend = .error msg) :
    createFile store none genId authSend userId data =
      { result := .error (.genericError
          ("Failed to retrieve user with ID " ++ userId ++ ": " ++ msg)),
        store := store ++ [⟨genId, data.fileName, data.fileType, data.storageKey, userId⟩],
        authContacted := true } := by
  unfold createFile
  rw [hid]

/-- Witness for the amended C6: the identity service always fails with boom;
createFile for u7 surfaces the wrapping error and keeps the created record. -/
theorem createFile_identityFailure_aborts_keeps_record_witness :
    createFile [] none "f3" (fun _ => .error ("boom")) "u7"
        ⟨"c.png", "PNG", "u7/3_c.png"⟩ =
      { result := .error (.genericError ("Failed to retrieve user with ID u7: boom")),
        store := [⟨"f3", "c.png", "PNG", "u7/3_c.png", "u7"⟩],
        authContacted := true } :=
  createFile_identityFailure_aborts_keeps_record [] "f3" (fun _ => .error ("boom"))
    "u7" ⟨"c.png", "PNG", "u7/3_c.png"⟩ "boom" (by decide)

/-- Claim C7, counterexample: the remote answers the first attempt with a
definitive not-found error and the second attempt with a user; the pipeline
resubscribes after the definitive failure and returns the user, so a
definitive not-found response is retried, contrary to the claim. -/
theorem lookupWithRetry_retries_definitive_notFound_counterexample :
    lookupWithRetry (fun k => if k == 0 then .error ("user not found")
        else .ok ⟨"u1", "John"⟩) = .ok ⟨"u1", "John"⟩ := by decide

/-- Claim C7, amended: the lookup makes at most four attempts (one initial
subscription plus three retries); when every attempt fails, whatever the
failure kind, the error of the fourth attempt propagates and createFile
surfaces a single generic Error naming the user id, with no distinct
IdentityUnavailable or IdentityNotFound failure types. -/
theorem lookupWithRetry_bounded_exhaustion
    (authSend : Nat → Except String UserResponseDto) (ms : Nat → String)
    (store : List FileRecord) (genId userId : String) (data : CreateFileDto)
    (hfail : ∀ k, authSend k = .error (ms k)) :
    lookupWithRetry authSend = .error (ms 3) ∧
    (createFile store none genId authSend userId data).result =
      .error (.genericError
        ("Failed to retrieve user with ID " ++ userId ++ ": " ++ ms 3)) := by
  have hlook : lookupWithRetry authSend = .error (ms 3) := by
    unfold lookupWithRetry
    rw [hfail 0, hfail 1, hfail 2, hfail 3]
  refine ⟨hlook, ?_⟩
  unfold createFile
  rw [hlook]

/-- Witness for the amended C7: the identity service times out on every
attempt; the lookup exhausts its four attempts and createFile for u5
surfaces the generic wrapping error. -/
theorem lookupWithRetry_bounded_exhaustion_witness :
    lookupWithRetry (fun _ => .error ("timeout")) = .error ("timeout") ∧
    (createFile [] none "f4" (fun _ => .error ("timeout")) "u5"
        ⟨"d.png", "PNG", "u5/4_d.png"⟩).result =
      .error (.genericError ("Failed to retrieve user with ID u5: timeout")) :=
  lookupWithRetry_bounded_exhaustion (fun _ => .error ("timeout")) (fun _ => "timeout")
    [] "f4" "u5" ⟨"d.png", "PNG", "u5/4_d.png"⟩ (fun k => rfl)

/-- Claim C8: on a file id with no record, getPresignGetObject and deleteFile
both throw the NotFoundException with message file.fileNotFound, with an
empty object-store call log (the not-found check happens before any
object-store interaction) and, for deleteFile, an unchanged record store. -/
theorem missing_record_fileNotFound_no_s3 (store : List FileRecord)
    (signedUrl : Except JsError String) (s3Delete prismaDelete : Except JsError Unit)
    (requesterId fileId : String) (hfind : findUnique store fileId = none) :
    getPresignGetObject store signedUrl fileId =
      { result := .error (.notFoundException ("file.fileNotFound")), s3Calls := [] } ∧
    deleteFile store s3Delete prismaDelete requesterId fileId =
      { result := .error (.notFoundException ("file.fileNotFound")),
        store := store, s3Calls := [] } := by
  constructor
  · unfold getPresignGetObject
    rw [hfind]
  · unfold deleteFile
    rw [hfind]

/-- Witness for C8: with an empty record store, both operations on id f9 fail
with the NotFoundException and no object-store call. -/
theorem missing_record_fileNotFound_no_s3_witness :
    getPresignGetObject [] (.ok ("url")) "f9" =
      { result := .error (.notFoundException ("file.fileNotFound")), s3Calls := [] } ∧
    deleteFile [] (.ok ()) (.ok ()) "u1" "f9" =
      { result := .error (.notFoundException ("file.fileNotFound")),
        store := [], s3Calls := [] } :=
  missing_record_fileNotFound_no_s3 [] (.ok ("url")) (.ok ()) (.ok ()) "u1" "f9"
    (by decide)

/-- Claim C9: on a successful createFile (create succeeds, identity lookup
succeeds), the returned response carries exactly the storage key supplied in
the request body, unchanged, along with the other supplied fields and the
generated id. -/
theorem createFile_returns_supplied_storageKey (store : List FileRecord)
    (genId : String) (authSend : Nat → Except String UserResponseDto)
    (userId : String) (data : CreateFileDto) (user : UserResponseDto)
    (hid : lookupWithRetry authSend = .ok user) :
    (createFile store none genId authSend userId data).result =
      .ok { id := genId, fileName := data.fileName, fileType := data.fileType,
            storageKey := data.storageKey, userId := userId, author := user } := by
  unfold createFile
  rw [hid]

/-- Witness for C9: a concrete successful createFile returns the supplied key
e.png-key unchanged. -/
theorem createFile_returns_supplied_storageKey_witness :
    (createFile [] none "f5" (fun _ => .ok ⟨"u2", "Jane"⟩) "u2"
        ⟨"e.png", "PNG", "e.png-key"⟩).result =
      .ok { id := "f5", fileName := "e.png", fileType := "PNG",
            storageKey := "e.png-key", userId := "u2", author := ⟨"u2", "Jane"⟩ } :=
  createFile_returns_supplied_storageKey [] "f5" (fun _ => .ok ⟨"u2", "Jane"⟩)
    "u2" ⟨"e.png", "PNG", "e.png-key"⟩ ⟨"u2", "Jane"⟩ (by decide)

/-- Claim C10: when the record-store create fails, createFile surfaces that
very error unwrapped, the identity service is never contacted, and the
record store is unchanged (nothing was persisted by the call). -/
theorem createFile_persistFirst_create_failure_propagates (store : List FileRecord)
    (e : JsError) (genId : String) (authSend : Nat → Except String UserResponseDto)
    (userId : String) (data : CreateFileDto) :
    createFile store (some e) genId authSend userId data =
      { result := .error e, store := store, authContacted := false } := rfl

end FilesService
